import Mathlib

/-!
Shallow embedding of the core of `lib/bravia.js` from the
ioBroker.sony-bravia adapter: the JSON-RPC-style structured-call
transport (`_jsonRequest`), the facade operations built on it, the
per-namespace API-version cache (`getSupportedApiVersion`), the IRCC
command-table resolution and sequential dispatch (`getIRCCCodes`,
`send`), and the SSDP discovery scan (`discover`).

Network interaction is modelled by oracles: a structured call is a
function of the transport outcome (a transport-level error, or an HTTP
response carrying a status code and a decoded JSON body); the
command-table and supported-API fetches are oracles indexed by how many
fetches have been issued so far, so that fetch counting is explicit.
-/

namespace SonyBravia

/-! ## JavaScript value model

JSON-decoded response bodies, plus `undefined` for the result of accessing
an absent property, mirroring the JavaScript semantics the facade code
relies on (`if (body.result)`, `body.error[1]`, ...). -/

inductive JVal where
  | undefined
  | null
  | bool (b : Bool)
  | num (n : Int)
  | str (s : String)
  | arr (xs : List JVal)
  | obj (fields : List (String × JVal))


/-- JavaScript truthiness of a value (`if (v)`). -/
def JVal.truthy : JVal → Bool
  | .undefined => false
  | .null => false
  | .bool b => b
  | .num n => n != 0
  | .str s => s != ""
  | .arr _ => true
  | .obj _ => true

/-- Quote a string as a JSON string literal (used by `JSON.stringify`). -/
def jsonQuote (s : String) : String :=
  "\"" ++ String.join (s.data.map (fun c =>
    if c = '"' then "\\\"" else if c = '\\' then "\\\\" else String.mk [c])) ++ "\""

mutual

/-- `JSON.stringify` on a decoded value (`undefined` never occurs in a
decoded body, it stringifies as the empty rendering here). -/
def JVal.stringify : JVal → String
  | .undefined => "undefined"
  | .null => "null"
  | .bool b => if b then "true" else "false"
  | .num n => toString n
  | .str s => jsonQuote s
  | .arr xs => "[" ++ JVal.stringifyArr xs ++ "]"
  | .obj fs => "\x7b" ++ JVal.stringifyObj fs ++ "\x7d"

def JVal.stringifyArr : List JVal → String
  | [] => ""
  | [x] => x.stringify
  | x :: y :: xs => x.stringify ++ "," ++ JVal.stringifyArr (y :: xs)

def JVal.stringifyObj : List (String × JVal) → String
  | [] => ""
  | [(k, v)] => jsonQuote k ++ ":" ++ v.stringify
  | (k, v) :: f :: fs => jsonQuote k ++ ":" ++ v.stringify ++ "," ++ JVal.stringifyObj (f :: fs)

end

/-- JavaScript property access `v[k]` for a string key: throws a
`TypeError` on `null`/`undefined`, looks the key up on objects
(absent key gives `undefined`), and gives `undefined` on every other
primitive or array (no such named property). -/
def jsGet (v : JVal) (k : String) : Except String JVal :=
  match v with
  | .undefined => .error ("TypeError: Cannot read properties of undefined (reading " ++ k ++ ")")
  | .null => .error ("TypeError: Cannot read properties of null (reading " ++ k ++ ")")
  | .obj fs =>
    match fs.lookup k with
    | some x => .ok x
    | none => .ok .undefined
  | _ => .ok .undefined

/-- JavaScript numeric indexing `v[i]`: throws on `null`/`undefined`,
indexes arrays (out of range gives `undefined`), indexes strings by
character, and gives `undefined` on other primitives and objects
without such a key. -/
def jsIndex (v : JVal) (i : Nat) : Except String JVal :=
  match v with
  | .undefined => .error ("TypeError: Cannot read properties of undefined (reading " ++ toString i ++ ")")
  | .null => .error ("TypeError: Cannot read properties of null (reading " ++ toString i ++ ")")
  | .arr xs =>
    match xs[i]? with
    | some x => .ok x
    | none => .ok .undefined
  | .str s =>
    match s.data[i]? with
    | some c => .ok (.str (String.mk [c]))
    | none => .ok .undefined
  | .obj fs =>
    match fs.lookup (toString i) with
    | some x => .ok x
    | none => .ok .undefined
  | _ => .ok .undefined

/-- Whether the field `k` of an object with field list `fs` holds a
truthy value (`if (body.k)` on an object body): a field that is absent
or holds a falsy value counts as not set. -/
def truthyField (fs : List (String × JVal)) (k : String) : Bool :=
  match fs.lookup k with
  | some v => v.truthy
  | none => false

mutual

/-- JavaScript string conversion `String(v)` as used by template
interpolation. -/
def jsDisplay : JVal → String
  | .undefined => "undefined"
  | .null => "null"
  | .bool b => if b then "true" else "false"
  | .num n => toString n
  | .str s => s
  | .arr xs => jsDisplayArr xs
  | .obj _ => "[object Object]"

def jsDisplayArr : List JVal → String
  | [] => ""
  | [x] => jsDisplayElem x
  | x :: y :: xs => jsDisplayElem x ++ "," ++ jsDisplayArr (y :: xs)

/-- Inside `Array.prototype.join`, `null` and `undefined` render empty. -/
def jsDisplayElem : JVal → String
  | .undefined => ""
  | .null => ""
  | v => jsDisplay v

end

/-! ## Structured-call transport (`Bravia._jsonRequest`) -/

/-- Rejection values a structured call can carry: an `Error` with a
message, the transport-level error object passed through unchanged, or
a plain non-`Error` value (the source's final `reject(body)` branch). -/
inductive JErr where
  | err (msg : String)
  | transport (e : String)
  | value (v : JVal)


/-- An HTTP response as seen by the `Request.post` callback: a numeric
status code and the response body, here already JSON-decoded (the
source calls `JSON.parse` on the raw text; `JVal.stringify` recovers
the raw text for error echoing). -/
structure HttpResponse where
  statusCode : Nat
  body : JVal


/-- Outcome of one `Request.post`: either a truthy transport-level
`error` argument, or a response. -/
inductive NetOutcome where
  | err (e : String)
  | resp (r : HttpResponse)


/-- `Bravia._jsonRequest` (lines 441-473 of `lib/bravia.js`): resolve
the parsed body on HTTP 200 with no transport error; otherwise reject
with the transport error if present, else with the HTTP-status error
naming the method. The source's two further branches (`body.error` and
the bare `reject(body)`) require `statusCode === 200` and
`statusCode != 200` to hold at once and are unreachable for a numeric
status code, so they do not appear in the embedding. -/
def jsonRequest (method : String) (net : NetOutcome) : Except JErr JVal :=
  match net with
  | .err e => .error (.transport e)
  | .resp r =>
    if r.statusCode == 200 then
      .ok r.body
    else
      .error (.err (method ++ ". Response error, status code: " ++ toString r.statusCode ++ "."))

/-! ## Facade operations on the structured transport -/

/-- `Bravia.getInterfaceInformation` (lines 221-234): on a body with a
truthy `result`, resolve the
`modelName productName/interfaceVersion` template string; on a falsy
`result`, reject naming the operation and echoing the stringified
body; property-access `TypeError`s and transport failures propagate
through the `.catch`. -/
def getInterfaceInformation (net : NetOutcome) : Except JErr String :=
  match jsonRequest "getInterfaceInformation" net with
  | .error e => .error e
  | .ok body =>
    match jsGet body "result" with
    | .error te => .error (.err te)
    | .ok resultField =>
      if resultField.truthy then
        match jsIndex resultField 0 with
        | .error te => .error (.err te)
        | .ok r0 =>
          match jsGet r0 "modelName" with
          | .error te => .error (.err te)
          | .ok mn =>
            match jsGet r0 "productName" with
            | .error te => .error (.err te)
            | .ok pn =>
              match jsGet r0 "interfaceVersion" with
              | .error te => .error (.err te)
              | .ok iv => .ok (jsDisplay mn ++ " " ++ jsDisplay pn ++ "/" ++ jsDisplay iv)
      else
        .error (.err ("getInterfaceInformation. Response error. Missing result. " ++ body.stringify))

/-- `Bravia.getPlayingContentInfo` (lines 255-271): a truthy `result`
resolves `result[0].title`; otherwise a truthy `error` resolves
`error[1]` (the application-level message is treated as a valid
value); otherwise reject naming the operation and echoing the body. -/
def getPlayingContentInfo (net : NetOutcome) : Except JErr JVal :=
  match jsonRequest "getPlayingContentInfo" net with
  | .error e => .error e
  | .ok body =>
    match jsGet body "result" with
    | .error te => .error (.err te)
    | .ok resultField =>
      if resultField.truthy then
        match jsIndex resultField 0 with
        | .error te => .error (.err te)
        | .ok r0 =>
          match jsGet r0 "title" with
          | .error te => .error (.err te)
          | .ok t => .ok t
      else
        match jsGet body "error" with
        | .error te => .error (.err te)
        | .ok errorField =>
          if errorField.truthy then
            match jsIndex errorField 1 with
            | .ok m => .ok m
            | .error te => .error (.err te)
          else
            .error (.err ("getPlayingContentInfo. Response error. Missing result. " ++ body.stringify))

/-! ## API version cache (`Bravia.getSupportedApiVersion`)

The supported-API table returned by `guide/getSupportedApiInfo` is
modelled with the typed shape the source traverses
(`apiInfo[0].apis`, `api.name`, `api.versions[...].version`). The
fetch itself (`Bravia.getSupportedApiInfo`, which resolves
`body.result[0]` or rejects) is an oracle indexed by the number of
fetches issued so far. -/

structure ApiVersion where
  version : String

structure ApiMethod where
  name : String
  versions : List ApiVersion

structure ApiService where
  apis : List ApiMethod

/-- Cache and fetch log of one client instance: `apiInfoMap` is the
`Map` from service namespace to its fetched table (association list,
`Map.set` on a miss prepends), and `log` records the namespaces of the
supported-API-info fetches issued so far, most recent first. -/
structure VcState where
  apiInfoMap : List (String × List ApiService)
  log : List String

def vcInit : VcState := ⟨[], []⟩

/-- The version lookup of `Bravia.getSupportedApiVersion` once the
table `apiInfo` is at hand: iterate `apiInfo[0].apis`, return the last
version entry of the first method whose name matches, else `"1.0"`.
Accessing `apiInfo[0]` when the table is empty, or the last version
entry of an empty version list, throws a `TypeError` (the async
function then rejects). -/
def lookupVersion (apiInfo : List ApiService) (methode : String) : Except String String :=
  match apiInfo.head? with
  | none => .error "TypeError: Cannot read properties of undefined (reading apis)"
  | some svc =>
    match svc.apis.find? (fun api => api.name == methode) with
    | some api =>
      match api.versions.getLast? with
      | some v => .ok v.version
      | none => .error "TypeError: Cannot read properties of undefined (reading version)"
    | none => .ok "1.0"

/-- One call of `Bravia.getSupportedApiVersion` (lines 348-360): a
cached namespace entry short-circuits the fetch; on a miss the oracle
fetch is issued (and logged); a successful fetch is stored in the map
before the version lookup, a failed fetch rejects and stores
nothing. -/
def getSupportedApiVersion (fetch : Nat → String → Except String (List ApiService))
    (st : VcState) (schema methode : String) : Except String String × VcState :=
  match st.apiInfoMap.lookup schema with
  | some apiInfo => (lookupVersion apiInfo methode, st)
  | none =>
    match fetch st.log.length schema with
    | .error e => (.error e, { st with log := schema :: st.log })
    | .ok apiInfo =>
      (lookupVersion apiInfo methode,
        { apiInfoMap := (schema, apiInfo) :: st.apiInfoMap, log := schema :: st.log })

/-- A sequence of `getSupportedApiVersion` calls on one client
instance, threading the cache state. -/
def vcRun (fetch : Nat → String → Except String (List ApiService))
    (calls : List (String × String)) (st : VcState) :
    List (Except String String) × VcState :=
  match calls with
  | [] => ([], st)
  | (schema, methode) :: rest =>
    let (r, st1) := getSupportedApiVersion fetch st schema methode
    let (rs, st2) := vcRun fetch rest st1
    (r :: rs, st2)

/-! ## IRCC command table and `Bravia.send`

`this._codes` and the count of `getRemoteControllerInfo` fetches
issued so far; the fetch (`this.system.invoke('getRemoteControllerInfo')`,
whose transport lives in the `service-protocol` module outside this
file) is an oracle indexed by the fetch count. -/

/-- One `{name, value}` entry of the Command Table. -/
structure IRCC where
  name : String
  value : String

structure CodesState where
  codes : List IRCC
  fetchCount : Nat

def codesInit : CodesState := ⟨[], 0⟩

/-- The character class `[a-zA-Z0-9]` of the literal-code regex. -/
def isIRCCAlnum (c : Char) : Bool :=
  ('a' ≤ c && c ≤ 'z') || ('A' ≤ c && c ≤ 'Z') || ('0' ≤ c && c ≤ '9')

/-- The anchored literal-code test of `Bravia.send` (line 130),
`^[A]\x7b5\x7d[a-zA-Z0-9]\x7b13\x7d[\=]\x7b2\x7d$`: every character
class is fixed-width, so the regex matches exactly the strings of
length 20 whose first five characters are `A`, next thirteen are
alphanumeric, and last two are `=`. -/
def isLiteralCode (s : String) : Bool :=
  s.data.length == 20 &&
  (s.data.take 5).all (fun c => c == 'A') &&
  ((s.data.drop 5).take 13).all isIRCCAlnum &&
  (s.data.drop 18).all (fun c => c == '=')

/-- `Bravia.getIRCCCodes` (lines 104-118): a non-empty cached code
list resolves immediately; otherwise the `getRemoteControllerInfo`
fetch is issued, its result (even an empty list) stored in
`this._codes`, a rejection passed through. -/
def getIRCCCodes (fetch : Nat → Except String (List IRCC)) (st : CodesState) :
    Except String (List IRCC) × CodesState :=
  if st.codes.length > 0 then
    (.ok st.codes, st)
  else
    match fetch st.fetchCount with
    | .ok codes => (.ok codes, { codes := codes, fetchCount := st.fetchCount + 1 })
    | .error e => (.error e, { st with fetchCount := st.fetchCount + 1 })

/-- The per-command resolution step inside `Bravia.send` (lines
128-143): a literal-shape string is used unchanged with no fetch;
any other string is looked up by exact name in the (possibly
freshly fetched) Command Table, rejecting with `Unknown IRCC code`
when absent. -/
def resolveCode (fetch : Nat → Except String (List IRCC)) (st : CodesState)
    (code : String) : Except String String × CodesState :=
  if isLiteralCode code then
    (.ok code, st)
  else
    let (r, st1) := getIRCCCodes fetch st
    match r with
    | .error e => (.error e, st1)
    | .ok response =>
      match response.find? (fun ircc => ircc.name == code) with
      | none => (.error ("Unknown IRCC code " ++ code ++ "."), st1)
      | some ircc => (.ok ircc.value, st1)

/-- A sequence of resolutions on one client instance, threading the
Command Table cache. -/
def resolveRun (fetch : Nat → Except String (List IRCC)) (names : List String)
    (st : CodesState) : List (Except String String) × CodesState :=
  match names with
  | [] => ([], st)
  | code :: rest =>
    let (r, st1) := resolveCode fetch st code
    let (rs, st2) := resolveRun fetch rest st1
    (r :: rs, st2)

/-- Everything of the SOAP envelope template of `Bravia.send` (lines
150-157) before the interpolated code. -/
def soapHead : String :=
  "<?xml version=\"1.0\"?>\n          <s:Envelope xmlns:s=\"http://schemas.xmlsoap.org/soap/envelope/\" s:encodingStyle=\"http://schemas.xmlsoap.org/soap/encoding/\">\n              <s:Body>\n                  <u:X_SendIRCC xmlns:u=\"urn:schemas-sony-com:service:IRCC:1\">\n                      <IRCCCode>"

/-- Everything of the SOAP envelope template after the interpolated
code. -/
def soapTail : String :=
  "</IRCCCode>\n                  </u:X_SendIRCC>\n              </s:Body>\n          </s:Envelope>"

/-- The legacy SOAP envelope with the resolved control code embedded
unchanged (the JavaScript template literal). -/
def soapEnvelope (code : String) : String :=
  soapHead ++ code ++ soapTail

/-- The sequential dispatch loop of `Bravia.send` (lines 120-167) over
a list of codes or names. `transmit` is the outcome of
`this._request(\x7bpath: '/IRCC', body\x7d)` for a given envelope
body. Returns the envelope bodies handed to the transport in order,
the final cache state, and the promise outcome: each command is
resolved and transmitted in turn; a resolution or transmission failure
rejects at once with that failure and the remaining commands are left
untouched; transmitting every command resolves. The inter-command
delay (`setTimeout`, 350ms) only spaces the steps out and is not part
of the value model. -/
def sendRun (fetch : Nat → Except String (List IRCC)) (transmit : String → Except String Unit)
    (codes : List String) (st : CodesState) (sent : List String) :
    List String × CodesState × Except String Unit :=
  match codes with
  | [] => (sent, st, .ok ())
  | code :: rest =>
    let (r, st1) := resolveCode fetch st code
    match r with
    | .error e => (sent, st1, .error e)
    | .ok c =>
      match transmit (soapEnvelope c) with
      | .error e => (sent ++ [soapEnvelope c], st1, .error e)
      | .ok _ => sendRun fetch transmit rest st1 (sent ++ [soapEnvelope c])

/-! ## Discovery (`Bravia.discover`, lines 46-102)

A discovery run is modelled as the ordered list of SSDP responses
whose processing completes before the deadline timer fires; the
deadline is the end of the list. Each response carries its SSDP status
code and, for responses the code fetches a descriptor for, the outcome
of retrieving and XML-parsing the descriptor document. The xml2js
one-element array wrappers (`device[0]`, `serviceList[0].service`,
`serviceType[0]`, ...) are flattened into direct fields, except for
`root.device`, whose emptiness the `try` block turns into a scan
failure. `URL.parse(service.controlURL[0])` is modelled as an already
split host and optional port. -/

structure ControlUrl where
  host : String
  port : Option Nat

structure XmlService where
  serviceType : String
  controlURL : ControlUrl

structure XmlDevice where
  serviceList : Option (List XmlService)
  friendlyName : String
  manufacturer : String
  manufacturerURL : String
  modelName : String
  UDN : String

/-- `result.root` of the parsed descriptor document. -/
structure XmlRoot where
  device : List XmlDevice

structure DiscoveredDevice where
  host : String
  port : Nat
  friendlyName : String
  manufacturer : String
  manufacturerURL : String
  modelName : String
  UDN : String

inductive ParseOutcome where
  | fail (body : String)
  | parsed (root : XmlRoot)

/-- Outcome of `Request.get(headers.LOCATION, ...)`: a transport error
or non-200 status (reported with the responder's address), or a body
handed to the XML parser. -/
inductive FetchOutcome where
  | fail (address : String)
  | ok (po : ParseOutcome)

structure SsdpEvent where
  statusCode : Nat
  descriptor : FetchOutcome

inductive ExtractResult where
  | skip
  | fail (msg : String)
  | found (d : DiscoveredDevice)

def ssdpServiceType : String := "urn:schemas-sony-com:service:IRCC:1"

/-- The `try` block of the response handler (lines 57-77): a missing
`serviceList` silently skips the responder; a device list or IRCC
service entry that is absent makes the block throw, caught as the
malformed-response failure (the parsed object interpolates as
`[object Object]`). -/
def processRoot (root : XmlRoot) : ExtractResult :=
  match root.device.head? with
  | none => .fail "Unexpected or malformed discovery response: [object Object]."
  | some device =>
    match device.serviceList with
    | none => .skip
    | some services =>
      match services.find? (fun s => s.serviceType == ssdpServiceType) with
      | none => .fail "Unexpected or malformed discovery response: [object Object]."
      | some service =>
        .found { host := service.controlURL.host
                 port := service.controlURL.port.getD 80
                 friendlyName := device.friendlyName
                 manufacturer := device.manufacturer
                 manufacturerURL := device.manufacturerURL
                 modelName := device.modelName
                 UDN := device.UDN }

/-- The two terminal states of a scan: the deadline timer resolving
the accumulated list, or `failed` rejecting with an error. -/
inductive DiscoverOutcome where
  | resolved (devices : List DiscoveredDevice)
  | rejected (msg : String)

/-- One scan of `Bravia.discover`: process each pre-deadline response
in order (non-200 SSDP responses are ignored; any descriptor fetch or
parse failure calls `failed`, which stops the client, clears the
timer and rejects the whole scan), then resolve the accumulated list
when the deadline fires. -/
def discoverRun : List SsdpEvent → List DiscoveredDevice → DiscoverOutcome
  | [], acc => .resolved acc
  | ev :: rest, acc =>
    if ev.statusCode == 200 then
      match ev.descriptor with
      | .fail address =>
        .rejected ("Error retrieving the description metadata for device " ++ address ++ ".")
      | .ok (.fail body) =>
        .rejected ("Failed to parse the discovery response: " ++ body ++ ".")
      | .ok (.parsed root) =>
        match processRoot root with
        | .skip => discoverRun rest acc
        | .fail msg => .rejected msg
        | .found d => discoverRun rest (acc ++ [d])
    else
      discoverRun rest acc

/-- The rejection message a single response would produce, if any:
descriptor fetch failures, parse failures, and malformed descriptor
structures; `none` for ignored, skipped, or successfully extracted
responses. -/
def eventFailure (ev : SsdpEvent) : Option String :=
  if ev.statusCode == 200 then
    match ev.descriptor with
    | .fail address =>
      some ("Error retrieving the description metadata for device " ++ address ++ ".")
    | .ok (.fail body) =>
      some ("Failed to parse the discovery response: " ++ body ++ ".")
    | .ok (.parsed root) =>
      match processRoot root with
      | .fail msg => some msg
      | _ => none
  else none

/-- The device a single response contributes to the accumulated list,
if any. -/
def eventDevice (ev : SsdpEvent) : Option DiscoveredDevice :=
  if ev.statusCode == 200 then
    match ev.descriptor with
    | .ok (.parsed root) =>
      match processRoot root with
      | .found d => some d
      | _ => none
    | _ => none
  else none

/-! ## Concrete sample data used to instantiate the theorems -/

/-- A literal-shape code: five `A`s, thirteen `a`s, two `=`s. -/
def demoA : String := "AAAAAaaaaaaaaaaaaa=="

def demoB : String := "AAAAAbbbbbbbbbbbbb=="

def demoC : String := "AAAAAccccccccccccc=="

/-- A command-table fetch oracle that is never consulted in the demo
send runs (every demo code is literal-shape). -/
def demoFetch : Nat → Except String (List IRCC) := fun _ => .ok []

/-- A transport oracle that fails exactly on the envelope of `demoB`. -/
def demoTransmit : String → Except String Unit := fun body =>
  if body == soapEnvelope demoB then .error "demo failure" else .ok ()

/-- A supported-API table entry advertising two versions of
`getContentList`, ascending, highest last. -/
def demoApiMethod : ApiMethod := ⟨"getContentList", [⟨"1.0"⟩, ⟨"1.5"⟩]⟩

def demoApiService : ApiService := ⟨[demoApiMethod]⟩

def demoApiInfo : List ApiService := [demoApiService]

/-- A parsed descriptor exposing the IRCC service. -/
def demoRootGood : XmlRoot :=
  ⟨[{ serviceList := some [⟨ssdpServiceType, ⟨"192.168.0.2:80", some 80⟩⟩]
      friendlyName := "BRAVIA"
      manufacturer := "Sony Corporation"
      manufacturerURL := "http://www.sony.net/"
      modelName := "KD-55X8505C"
      UDN := "uuid:00000000-0000-1010-8000-000000000000" }]⟩

/-- A parsed descriptor with no service listing at all (for instance a
Philips Hue gateway answering the same broadcast). -/
def demoRootBare : XmlRoot :=
  ⟨[{ serviceList := none
      friendlyName := "Hue Bridge"
      manufacturer := "Signify"
      manufacturerURL := "http://www.philips.com"
      modelName := "BSB002"
      UDN := "uuid:11111111-1111-1111-1111-111111111111" }]⟩

/-- The device record `processRoot demoRootGood` extracts. -/
def demoDevice : DiscoveredDevice :=
  { host := "192.168.0.2:80"
    port := 80
    friendlyName := "BRAVIA"
    manufacturer := "Sony Corporation"
    manufacturerURL := "http://www.sony.net/"
    modelName := "KD-55X8505C"
    UDN := "uuid:00000000-0000-1010-8000-000000000000" }

/-- A pre-deadline response sequence with one good device, one
descriptor without a service listing, and one non-200 SSDP response:
no failure occurs, so the scan resolves with just the good device. -/
def demoEvents : List SsdpEvent :=
  [⟨200, .ok (.parsed demoRootGood)⟩,
   ⟨200, .ok (.parsed demoRootBare)⟩,
   ⟨404, .fail "192.168.0.9"⟩]

/-! # Helper lemmas -/

/-- Two strings are distinct when their first characters differ, even
after appending an arbitrary suffix to the second. -/
theorem string_ne_append_of_head {a b : String} (x : String) {cA cB : Char}
    (ha : a.data.head? = some cA) (hb : b.data.head? = some cB) (hne : cA ≠ cB) :
    a ≠ b ++ x := by
  intro h
  have hd : a.data = b.data ++ x.data := by rw [h, String.data_append]
  cases hbd : b.data with
  | nil => rw [hbd] at hb; exact Option.noConfusion hb
  | cons c cs =>
    rw [hbd] at hb
    rw [hd, hbd] at ha
    simp only [List.cons_append, List.head?_cons, Option.some.injEq] at ha hb
    exact hne (ha ▸ hb ▸ rfl)

/-- `jsGet` only throws the two `TypeError` messages. -/
theorem jsGet_error_cases {v : JVal} {k te : String} (h : jsGet v k = .error te) :
    te = "TypeError: Cannot read properties of undefined (reading " ++ k ++ ")" ∨
    te = "TypeError: Cannot read properties of null (reading " ++ k ++ ")" := by
  cases v with
  | undefined => injection h with h'; exact Or.inl h'.symm
  | null => injection h with h'; exact Or.inr h'.symm
  | bool b => exact Except.noConfusion h
  | num n => exact Except.noConfusion h
  | str s => exact Except.noConfusion h
  | arr xs => exact Except.noConfusion h
  | obj fs =>
    unfold jsGet at h
    cases hl : fs.lookup k <;> simp [hl] at h

theorem truthy_undefined : JVal.undefined.truthy = false := rfl

/-- `jsIndex` cannot throw on a truthy value. -/
theorem jsIndex_ok_of_truthy {v : JVal} (hv : v.truthy = true) (i : Nat) :
    ∃ x, jsIndex v i = .ok x := by
  cases v with
  | undefined => simp [JVal.truthy] at hv
  | null => simp [JVal.truthy] at hv
  | bool b => exact ⟨.undefined, rfl⟩
  | num n => exact ⟨.undefined, rfl⟩
  | str s =>
    cases h : s.data[i]? with
    | none => exact ⟨.undefined, by simp [jsIndex, h]⟩
    | some c => exact ⟨.str (String.mk [c]), by simp [jsIndex, h]⟩
  | arr xs =>
    cases h : xs[i]? with
    | none => exact ⟨.undefined, by simp [jsIndex, h]⟩
    | some x => exact ⟨x, by simp [jsIndex, h]⟩
  | obj fs =>
    cases h : fs.lookup (toString i) with
    | none => exact ⟨.undefined, by simp [jsIndex, h]⟩
    | some x => exact ⟨x, by simp [jsIndex, h]⟩

/-! # Claims -/

/-- C5: `getPlayingContentInfo` on an HTTP-200 body
`\x7b"error": [40005, "Display Is Turned off"]\x7d` resolves
successfully with the string `"Display Is Turned off"` and does not
reject. -/
theorem getPlayingContentInfo_display_off :
    getPlayingContentInfo (.resp ⟨200,
        .obj [("error", .arr [.num 40005, .str "Display Is Turned off"])]⟩) =
      .ok (.str "Display Is Turned off") := rfl

/-- C7: every structured call receiving HTTP status 500 and no
transport-level error rejects with the HTTP-status error naming the
failed method and the code 500, independently of the response body
(so never with an error derived from parsing the body). -/
theorem jsonRequest_http500_names_method (method : String) (body : JVal) :
    jsonRequest method (.resp ⟨500, body⟩) =
      .error (.err (method ++ ". Response error, status code: 500.")) := by
  have h : (". Response error, status code: " ++ (toString (500 : Nat) ++ ".") : String) =
      ". Response error, status code: 500." := rfl
  have base : jsonRequest method (.resp ⟨500, body⟩) =
      .error (.err (method ++ ". Response error, status code: " ++
        toString (500 : Nat) ++ ".")) := rfl
  rw [String.append_assoc, String.append_assoc, h] at base
  exact base

/-- C6 counterexample: an HTTP-200 response whose body carries an
application-level error pair is resolved as a success by
`_jsonRequest` (the transport's own `body.error` branch is
unreachable), so the error-pair body IS passed through as a success,
contrary to the claim. -/
theorem jsonRequest_error_pair_passed_as_success :
    jsonRequest "getPowerStatus"
        (.resp ⟨200, .obj [("error", .arr [.num 403, .str "Forbidden"]), ("id", .num 1)]⟩) =
      .ok (.obj [("error", .arr [.num 403, .str "Forbidden"]), ("id", .num 1)]) := rfl

/-- C6 (amended): the transport surfaces a transport-level error by
rejecting with that error unchanged and a non-200 status by rejecting
with an HTTP-status error naming the method and code, and the two are
distinct rejection shapes; an HTTP-200 body — error pair or not — is
resolved as the parsed success body, its interpretation being left to
each facade operation. -/
theorem jsonRequest_failure_classification :
    (∀ (method e : String), jsonRequest method (.err e) = .error (.transport e)) ∧
    (∀ (method : String) (r : HttpResponse), r.statusCode ≠ 200 →
      jsonRequest method (.resp r) =
        .error (.err (method ++ ". Response error, status code: " ++
          toString r.statusCode ++ "."))) ∧
    (∀ (method : String) (body : JVal), jsonRequest method (.resp ⟨200, body⟩) = .ok body) ∧
    (∀ (e msg : String), JErr.transport e ≠ JErr.err msg) := by
  refine ⟨fun method e => rfl, ?_, fun method body => rfl, fun e msg h => JErr.noConfusion h⟩
  intro method r h
  simp [jsonRequest, h]

/-- C6 witness: a concrete HTTP 404 rejects with the HTTP-status
error. -/
theorem jsonRequest_failure_classification_witness :
    jsonRequest "getPowerStatus" (.resp ⟨404, .null⟩) =
      .error (.err "getPowerStatus. Response error, status code: 404.") :=
  jsonRequest_failure_classification.2.1 "getPowerStatus" ⟨404, .null⟩ (by decide)

/-- C8: `getInterfaceInformation` on the documented HTTP-200 body
resolves to `"FW-55BZ35F BRAVIA/5.0.1"`, and on any HTTP-200 object
body with no `result` field rejects with an error naming the
operation and echoing the stringified body. -/
theorem getInterfaceInformation_result_mapping :
    getInterfaceInformation (.resp ⟨200,
        .obj [("result", .arr [.obj [("modelName", .str "FW-55BZ35F"),
          ("productName", .str "BRAVIA"), ("interfaceVersion", .str "5.0.1")]])]⟩) =
      .ok "FW-55BZ35F BRAVIA/5.0.1" ∧
    (∀ fs : List (String × JVal), fs.lookup "result" = none →
      getInterfaceInformation (.resp ⟨200, .obj fs⟩) =
        .error (.err ("getInterfaceInformation. Response error. Missing result. " ++
          (JVal.obj fs).stringify))) := by
  constructor
  · have d1 : jsDisplay (.str "FW-55BZ35F") = "FW-55BZ35F" := by simp [jsDisplay]
    have d2 : jsDisplay (.str "BRAVIA") = "BRAVIA" := by simp [jsDisplay]
    have d3 : jsDisplay (.str "5.0.1") = "5.0.1" := by simp [jsDisplay]
    show Except.ok (jsDisplay (.str "FW-55BZ35F") ++ " " ++ jsDisplay (.str "BRAVIA") ++ "/" ++
        jsDisplay (.str "5.0.1")) = Except.ok "FW-55BZ35F BRAVIA/5.0.1"
    rw [d1, d2, d3]
    exact rfl
  · intro fs h
    simp [getInterfaceInformation, jsonRequest, jsGet, h, JVal.truthy]

/-- C8 witness: a concrete resultless body is rejected with the
operation name and the echoed body. -/
theorem getInterfaceInformation_result_mapping_witness :
    getInterfaceInformation (.resp ⟨200, .obj [("id", JVal.num 33)]⟩) =
      .error (.err ("getInterfaceInformation. Response error. Missing result. " ++
        (JVal.obj [("id", JVal.num 33)]).stringify)) :=
  getInterfaceInformation_result_mapping.2 [("id", JVal.num 33)] rfl

/-- C10 counterexample: the body `\x7b"result": null\x7d` contains a
`result` field, yet `getPlayingContentInfo` rejects it with the
missing-result error — the code tests truthiness, not field
presence, so "rejects only when the body contains neither field" is
false as stated. -/
theorem getPlayingContentInfo_rejects_despite_result_field :
    (([("result", JVal.null)] : List (String × JVal)).lookup "result" = some JVal.null) ∧
    getPlayingContentInfo (.resp ⟨200, .obj [("result", JVal.null)]⟩) =
      .error (.err ("getPlayingContentInfo. Response error. Missing result. " ++
        (JVal.obj [("result", JVal.null)]).stringify)) :=
  ⟨rfl, rfl⟩

/-- C10 (amended): `getPlayingContentInfo` resolves the message string
of every HTTP-200 error-pair body regardless of the error code, and it
rejects with the missing-result error exactly when the HTTP-200
object body has neither a truthy `result` field nor a truthy `error`
field (a field holding a falsy value such as `null` counts as
absent). -/
theorem getPlayingContentInfo_error_reinterpretation :
    (∀ (code : Int) (msg : String),
      getPlayingContentInfo (.resp ⟨200, .obj [("error", .arr [.num code, .str msg])]⟩) =
        .ok (.str msg)) ∧
    (∀ fs : List (String × JVal),
      getPlayingContentInfo (.resp ⟨200, .obj fs⟩) =
          .error (.err ("getPlayingContentInfo. Response error. Missing result. " ++
            (JVal.obj fs).stringify)) ↔
        truthyField fs "result" = false ∧ truthyField fs "error" = false) := by
  constructor
  · intro code msg; rfl
  · intro fs
    constructor
    · intro h
      cases hres : fs.lookup "result" with
      | some v =>
        have hresF : jsGet (JVal.obj fs) "result" = .ok v := by simp [jsGet, hres]
        cases hv : v.truthy with
        | true =>
          obtain ⟨r0, hr0⟩ := jsIndex_ok_of_truthy hv 0
          cases ht : jsGet r0 "title" with
          | ok t =>
            simp [getPlayingContentInfo, jsonRequest, hresF, hv, hr0, ht] at h
          | error te =>
            simp [getPlayingContentInfo, jsonRequest, hresF, hv, hr0, ht] at h
            rcases jsGet_error_cases ht with h3 | h3 <;>
              · rw [h3] at h
                exact absurd h (string_ne_append_of_head _ (by rfl) (by rfl) (by decide))
        | false =>
          have hresT : truthyField fs "result" = false := by simp [truthyField, hres, hv]
          cases herr : fs.lookup "error" with
          | some w =>
            have herrF : jsGet (JVal.obj fs) "error" = .ok w := by simp [jsGet, herr]
            cases hw : w.truthy with
            | true =>
              obtain ⟨m, hm⟩ := jsIndex_ok_of_truthy hw 1
              simp [getPlayingContentInfo, jsonRequest, hresF, hv, herrF, hw, hm] at h
            | false =>
              exact ⟨hresT, by simp [truthyField, herr, hw]⟩
          | none =>
            exact ⟨hresT, by simp [truthyField, herr]⟩
      | none =>
        have hresT : truthyField fs "result" = false := by simp [truthyField, hres]
        have hresF : jsGet (JVal.obj fs) "result" = .ok .undefined := by simp [jsGet, hres]
        cases herr : fs.lookup "error" with
        | some w =>
          have herrF : jsGet (JVal.obj fs) "error" = .ok w := by simp [jsGet, herr]
          cases hw : w.truthy with
          | true =>
            obtain ⟨m, hm⟩ := jsIndex_ok_of_truthy hw 1
            simp [getPlayingContentInfo, jsonRequest, hresF, truthy_undefined, herrF, hw, hm] at h
          | false =>
            exact ⟨hresT, by simp [truthyField, herr, hw]⟩
        | none =>
          exact ⟨hresT, by simp [truthyField, herr]⟩
    · rintro ⟨h1, h2⟩
      cases hres : fs.lookup "result" with
      | some v =>
        have hv : v.truthy = false := by simpa [truthyField, hres] using h1
        cases herr : fs.lookup "error" with
        | some w =>
          have hw : w.truthy = false := by simpa [truthyField, herr] using h2
          simp [getPlayingContentInfo, jsonRequest, jsGet, hres, hv, herr, hw]
        | none =>
          simp [getPlayingContentInfo, jsonRequest, jsGet, hres, hv, herr, truthy_undefined]
      | none =>
        cases herr : fs.lookup "error" with
        | some w =>
          have hw : w.truthy = false := by simpa [truthyField, herr] using h2
          simp [getPlayingContentInfo, jsonRequest, jsGet, hres, herr, hw, truthy_undefined]
        | none =>
          simp [getPlayingContentInfo, jsonRequest, jsGet, hres, herr, truthy_undefined]

/-- C10 witness: a concrete body with neither field rejects with the
missing-result error. -/
theorem getPlayingContentInfo_error_reinterpretation_witness :
    getPlayingContentInfo (.resp ⟨200, .obj [("id", JVal.num 2)]⟩) =
      .error (.err ("getPlayingContentInfo. Response error. Missing result. " ++
        (JVal.obj [("id", JVal.num 2)]).stringify)) :=
  (getPlayingContentInfo_error_reinterpretation.2 [("id", JVal.num 2)]).mpr ⟨rfl, rfl⟩

/-- C1: `Bravia.send` dispatches strictly in sequence. First conjunct:
if a prefix of the command list already ends in a rejection, appending
further commands changes nothing — same transmitted envelopes, same
cache state (so the extra commands are neither resolved nor
transmitted), same error. Second conjunct: when the head command
resolves but its transmission fails, the run rejects with exactly the
transmission failure, having transmitted only that envelope, and the
remaining commands are untouched. -/
theorem send_stops_at_first_failure :
    (∀ (fetch : Nat → Except String (List IRCC)) (transmit : String → Except String Unit)
      (pre post : List String) (st : CodesState) (sent out : List String)
      (st1 : CodesState) (e : String),
      sendRun fetch transmit pre st sent = (out, st1, .error e) →
      sendRun fetch transmit (pre ++ post) st sent = (out, st1, .error e)) ∧
    (∀ (fetch : Nat → Except String (List IRCC)) (transmit : String → Except String Unit)
      (code : String) (rest : List String) (st st1 : CodesState) (sent : List String)
      (c e : String),
      resolveCode fetch st code = (.ok c, st1) →
      transmit (soapEnvelope c) = .error e →
      sendRun fetch transmit (code :: rest) st sent =
        (sent ++ [soapEnvelope c], st1, .error e)) := by
  constructor
  · intro fetch transmit pre
    induction pre with
    | nil =>
      intro post st sent out st1 e h
      simp [sendRun] at h
    | cons code rest ih =>
      intro post st sent out st1 e h
      rw [List.cons_append]
      rw [sendRun] at h ⊢
      rcases hr : resolveCode fetch st code with ⟨e2 | c, st2⟩
      · rw [hr] at h
        dsimp only at h ⊢
        exact h
      · rw [hr] at h
        dsimp only at h ⊢
        cases ht : transmit (soapEnvelope c) with
        | error e3 =>
          rw [ht] at h
          dsimp only at h ⊢
          exact h
        | ok u =>
          rw [ht] at h
          dsimp only at h ⊢
          exact ih post st2 (sent ++ [soapEnvelope c]) out st1 e h
  · intro fetch transmit code rest st st1 sent c e hr ht
    rw [sendRun, hr]
    dsimp only
    rw [ht]

set_option maxRecDepth 8000 in
/-- C1 witness: in the three-command run `[demoA, demoB, demoC]` where
transmission of `demoB`'s envelope fails, `demoC` is not attempted and
the run rejects with `demoB`'s transmission error. -/
theorem send_stops_at_first_failure_witness :
    sendRun demoFetch demoTransmit [demoA, demoB, demoC] codesInit [] =
      ([soapEnvelope demoA, soapEnvelope demoB], codesInit, .error "demo failure") :=
  send_stops_at_first_failure.1 demoFetch demoTransmit [demoA, demoB] [demoC] codesInit []
    [soapEnvelope demoA, soapEnvelope demoB] codesInit "demo failure" (by rfl)

/-- C3: every string of the literal-code shape — five `A`s, thirteen
alphanumerics, `==` — is treated as a literal control code: it passes
the regex test, resolution returns it unchanged with the cache state
untouched (no Command Table fetch), and a one-command send hands the
transport exactly the SOAP envelope with the code embedded unchanged,
again leaving the cache state (hence the fetch count) untouched. -/
theorem literal_code_sent_unchanged_without_fetch :
    ∀ mid : String, mid.length = 13 → mid.data.all isIRCCAlnum = true →
    ∀ (fetch : Nat → Except String (List IRCC)) (transmit : String → Except String Unit)
      (st : CodesState) (sent : List String),
      isLiteralCode ("AAAAA" ++ mid ++ "==") = true ∧
      resolveCode fetch st ("AAAAA" ++ mid ++ "==") = (.ok ("AAAAA" ++ mid ++ "=="), st) ∧
      (sendRun fetch transmit ["AAAAA" ++ mid ++ "=="] st sent).1 =
        sent ++ [soapHead ++ ("AAAAA" ++ mid ++ "==") ++ soapTail] ∧
      (sendRun fetch transmit ["AAAAA" ++ mid ++ "=="] st sent).2.1 = st := by
  intro mid hlen halnum fetch transmit st sent
  have hml : mid.data.length = 13 := hlen
  have hdata : ("AAAAA" ++ mid ++ "==").data =
      'A' :: 'A' :: 'A' :: 'A' :: 'A' :: (mid.data ++ ['=', '=']) := by
    rw [String.data_append, String.data_append, List.append_assoc]
    rfl
  have hlit : isLiteralCode ("AAAAA" ++ mid ++ "==") = true := by
    unfold isLiteralCode
    rw [hdata]
    have h1 : ('A' :: 'A' :: 'A' :: 'A' :: 'A' :: (mid.data ++ ['=', '='])).length = 20 := by
      simp [hml]
    have h2 : (mid.data ++ ['=', '=']).take 13 = mid.data := List.take_left' hml
    have h3 : (mid.data ++ ['=', '=']).drop 13 = ['=', '='] := List.drop_left' hml
    simp [h1, h2, h3, halnum]
  have hrc : resolveCode fetch st ("AAAAA" ++ mid ++ "==") =
      (.ok ("AAAAA" ++ mid ++ "=="), st) := by
    simp [resolveCode, hlit]
  refine ⟨hlit, hrc, ?_, ?_⟩ <;>
  · rw [sendRun, hrc]
    dsimp only
    cases ht : transmit (soapEnvelope ("AAAAA" ++ mid ++ "==")) with
    | error e => rfl
    | ok u => rfl

/-- C3 witness: a concrete literal-shape code is resolved unchanged,
sent as the SOAP envelope, and triggers no fetch. -/
theorem literal_code_sent_unchanged_without_fetch_witness :
    isLiteralCode ("AAAAA" ++ "abcdefghij123" ++ "==") = true ∧
    resolveCode demoFetch codesInit ("AAAAA" ++ "abcdefghij123" ++ "==") =
      (.ok ("AAAAA" ++ "abcdefghij123" ++ "=="), codesInit) ∧
    (sendRun demoFetch demoTransmit ["AAAAA" ++ "abcdefghij123" ++ "=="] codesInit []).1 =
      [] ++ [soapHead ++ ("AAAAA" ++ "abcdefghij123" ++ "==") ++ soapTail] ∧
    (sendRun demoFetch demoTransmit ["AAAAA" ++ "abcdefghij123" ++ "=="] codesInit []).2.1 =
      codesInit :=
  literal_code_sent_unchanged_without_fetch "abcdefghij123" (by decide) (by decide)
    demoFetch demoTransmit codesInit []

/-- C4 counterexample: when the Command Table fetch resolves with an
empty list, the cache check `this._codes.length > 0` keeps failing, so
resolving two non-literal names in sequence issues two
`getRemoteControllerInfo` fetches, not one. -/
theorem resolve_refetches_when_table_stays_empty :
    (resolveRun (fun _ => .ok []) ["play", "pause"] codesInit).2.fetchCount = 2 ∧
    ¬ (resolveRun (fun _ => .ok []) ["play", "pause"] codesInit).2.fetchCount ≤ 1 := by
  exact ⟨rfl, by decide⟩

/-- C4 (amended): resolution caching, as the code implements it.
A non-empty cached table is reused by every resolution with no state
change and no fetch; when every issued fetch returns a non-empty code
list, any resolution sequence from a fresh client issues at most one
fetch; but while the table stays empty, each non-literal resolution
issues a fetch: an empty-list fetch result leaves the cache empty and
rejects with `Unknown IRCC code`, and a failed fetch leaves the cache
empty and rejects with the fetch error. -/
theorem resolve_fetches_once_after_nonempty :
    (∀ (fetch : Nat → Except String (List IRCC)) (names : List String) (st : CodesState),
      st.codes ≠ [] → (resolveRun fetch names st).2 = st) ∧
    (∀ (fetch : Nat → Except String (List IRCC)) (names : List String),
      (∀ n, ∃ cs, fetch n = .ok cs ∧ cs ≠ []) →
      (resolveRun fetch names codesInit).2.fetchCount ≤ 1) ∧
    (∀ (fetch : Nat → Except String (List IRCC)) (st : CodesState) (code : String),
      st.codes = [] → isLiteralCode code = false → fetch st.fetchCount = .ok [] →
      resolveCode fetch st code =
        (.error ("Unknown IRCC code " ++ code ++ "."), ⟨[], st.fetchCount + 1⟩)) ∧
    (∀ (fetch : Nat → Except String (List IRCC)) (st : CodesState) (code e : String),
      st.codes = [] → isLiteralCode code = false → fetch st.fetchCount = .error e →
      resolveCode fetch st code = (.error e, ⟨[], st.fetchCount + 1⟩)) := by
  have hstep : ∀ (fetch : Nat → Except String (List IRCC)) (st : CodesState) (code : String),
      st.codes ≠ [] → (resolveCode fetch st code).2 = st := by
    intro fetch st code h
    have hlen : st.codes.length > 0 := List.length_pos.mpr h
    cases hl : isLiteralCode code with
    | true => simp [resolveCode, hl]
    | false =>
      rw [resolveCode]
      rw [hl]
      simp only [Bool.false_eq_true, if_false, getIRCCCodes, if_pos hlen]
      cases hf : st.codes.find? (fun ircc => ircc.name == code) <;> simp [hf]
  have hrun : ∀ (fetch : Nat → Except String (List IRCC)) (names : List String)
      (st : CodesState), st.codes ≠ [] → (resolveRun fetch names st).2 = st := by
    intro fetch names
    induction names with
    | nil => intro st h; rfl
    | cons code rest ih =>
      intro st h
      rw [resolveRun]
      rcases hr : resolveCode fetch st code with ⟨r, st1⟩
      have hst1 : st1 = st := by
        have := hstep fetch st code h
        rw [hr] at this
        exact this
      subst hst1
      simp only []
      exact ih _ h
  refine ⟨hrun, ?_, ?_, ?_⟩
  · intro fetch names hf
    induction names with
    | nil => exact Nat.zero_le 1
    | cons code rest ih =>
      rw [resolveRun]
      cases hl : isLiteralCode code with
      | true =>
        have hr : resolveCode fetch codesInit code = (.ok code, codesInit) := by
          simp [resolveCode, hl]
        rw [hr]
        exact ih
      | false =>
        obtain ⟨cs, hcs, hne⟩ := hf 0
        have hr : resolveCode fetch codesInit code =
            ((match cs.find? (fun ircc => ircc.name == code) with
              | none => .error ("Unknown IRCC code " ++ code ++ ".")
              | some ircc => .ok ircc.value), ⟨cs, 1⟩) := by
          rw [resolveCode, hl]
          simp only [Bool.false_eq_true, if_false, getIRCCCodes, codesInit]
          rw [if_neg (by simp)]
          rw [hcs]
          cases hfind : cs.find? (fun ircc => ircc.name == code) <;> simp [hfind]
        rw [hr]
        have h2 := hrun fetch rest ⟨cs, 1⟩ (by simpa using hne)
        dsimp only
        rw [h2]
  · intro fetch st code hcodes hl hfetch
    rw [resolveCode, hl]
    simp only [Bool.false_eq_true, if_false, getIRCCCodes]
    rw [if_neg (by simp [hcodes]), hfetch, hcodes]
    simp
  · intro fetch st code e hcodes hl hfetch
    rw [resolveCode, hl]
    simp only [Bool.false_eq_true, if_false, getIRCCCodes]
    rw [if_neg (by simp [hcodes]), hfetch, hcodes]

/-- C4 witness: a populated cache is reused with no state change; with
non-empty fetch results two resolutions cost at most one fetch; with
an empty or failed fetch the cache stays empty and the fetch is
re-issued on the next resolution. -/
theorem resolve_fetches_once_after_nonempty_witness :
    (resolveRun demoFetch ["play"] ⟨[⟨"play", demoA⟩], 1⟩).2 = ⟨[⟨"play", demoA⟩], 1⟩ ∧
    (resolveRun (fun _ => .ok [⟨"play", demoA⟩]) ["play", "pause"] codesInit).2.fetchCount ≤ 1 ∧
    resolveCode (fun _ => .ok []) codesInit "play" =
      (.error ("Unknown IRCC code " ++ "play" ++ "."), ⟨[], 1⟩) ∧
    resolveCode (fun _ => .error "connect ECONNREFUSED") codesInit "play" =
      (.error "connect ECONNREFUSED", ⟨[], 1⟩) :=
  ⟨resolve_fetches_once_after_nonempty.1 demoFetch ["play"] ⟨[⟨"play", demoA⟩], 1⟩ (by simp),
   resolve_fetches_once_after_nonempty.2.1 (fun _ => .ok [⟨"play", demoA⟩]) ["play", "pause"]
     (fun n => ⟨[⟨"play", demoA⟩], rfl, by simp⟩),
   resolve_fetches_once_after_nonempty.2.2.1 (fun _ => .ok []) codesInit "play" rfl
     (by decide) rfl,
   resolve_fetches_once_after_nonempty.2.2.2 (fun _ => .error "connect ECONNREFUSED") codesInit
     "play" "connect ECONNREFUSED" rfl (by decide) rfl⟩

/-- Helper for C2: when every supported-API-info fetch succeeds, a
call sequence keeps the invariant that every logged namespace is
cached, and the fetch log stays duplicate-free. -/
theorem vcRun_log_invariant (fetch : Nat → String → Except String (List ApiService))
    (hf : ∀ n s, ∃ info, fetch n s = .ok info) :
    ∀ (calls : List (String × String)) (st : VcState),
      (∀ s ∈ st.log, (st.apiInfoMap.lookup s).isSome) → st.log.Nodup →
      (∀ s ∈ (vcRun fetch calls st).2.log,
        ((vcRun fetch calls st).2.apiInfoMap.lookup s).isSome) ∧
      (vcRun fetch calls st).2.log.Nodup := by
  intro calls
  induction calls with
  | nil => intro st h1 h2; exact ⟨h1, h2⟩
  | cons c rest ih =>
    rcases c with ⟨schema, methode⟩
    intro st h1 h2
    rw [vcRun]
    cases hlk : st.apiInfoMap.lookup schema with
    | some info =>
      have hstep : getSupportedApiVersion fetch st schema methode =
          (lookupVersion info methode, st) := by
        simp [getSupportedApiVersion, hlk]
      rw [hstep]
      dsimp only
      exact ih st h1 h2
    | none =>
      obtain ⟨info, hfe⟩ := hf st.log.length schema
      have hstep : getSupportedApiVersion fetch st schema methode =
          (lookupVersion info methode, ⟨(schema, info) :: st.apiInfoMap, schema :: st.log⟩) := by
        simp [getSupportedApiVersion, hlk, hfe]
      rw [hstep]
      dsimp only
      have hnotin : schema ∉ st.log := by
        intro hmem
        have hsome := h1 schema hmem
        rw [hlk] at hsome
        simp at hsome
      apply ih
      · intro s hs
        rcases List.mem_cons.mp hs with hs1 | hs2
        · subst hs1
          simp [List.lookup]
        · have hsome := h1 s hs2
          cases heq : (s == schema) with
          | true => simp [List.lookup, heq]
          | false => simpa [List.lookup, heq] using hsome
      · exact List.nodup_cons.mpr ⟨hnotin, h2⟩

/-- C2 counterexample: when the supported-API-info fetch for a
namespace fails, nothing is cached, so a second call for the same
namespace issues a second fetch — more than one fetch per namespace,
contrary to the claim. -/
theorem version_cache_refetches_after_failure :
    ((vcRun (fun _ _ => .error "connect ECONNREFUSED")
        [("avContent", "getContentList"), ("avContent", "getContentList")] vcInit).2.log =
      ["avContent", "avContent"]) ∧
    ¬ ((vcRun (fun _ _ => .error "connect ECONNREFUSED")
        [("avContent", "getContentList"), ("avContent", "getContentList")] vcInit).2.log.count
        "avContent" ≤ 1) :=
  ⟨rfl, by decide⟩

/-- C2 (amended): on a namespace cache miss with a successful fetch,
`getSupportedApiVersion` resolves the version string of the last entry
of the first matching method's versions list, and `"1.0"` when no
method of the advertised service matches; a cached namespace entry
short-circuits the fetch entirely (same result, state untouched); when
every fetch succeeds, any call sequence issues at most one fetch per
namespace; a failed fetch rejects with the fetch error and caches
nothing, so the namespace is fetched again on the next call. -/
theorem getSupportedApiVersion_spec :
    (∀ (fetch : Nat → String → Except String (List ApiService)) (st : VcState)
       (schema methode : String) (svc : ApiService) (rest : List ApiService)
       (api : ApiMethod) (v : ApiVersion),
      st.apiInfoMap.lookup schema = none →
      fetch st.log.length schema = .ok (svc :: rest) →
      svc.apis.find? (fun a => a.name == methode) = some api →
      api.versions.getLast? = some v →
      (getSupportedApiVersion fetch st schema methode).1 = .ok v.version) ∧
    (∀ (fetch : Nat → String → Except String (List ApiService)) (st : VcState)
       (schema methode : String) (svc : ApiService) (rest : List ApiService),
      st.apiInfoMap.lookup schema = none →
      fetch st.log.length schema = .ok (svc :: rest) →
      svc.apis.find? (fun a => a.name == methode) = none →
      (getSupportedApiVersion fetch st schema methode).1 = .ok "1.0") ∧
    (∀ (fetch : Nat → String → Except String (List ApiService)) (st : VcState)
       (schema methode : String) (apiInfo : List ApiService),
      st.apiInfoMap.lookup schema = some apiInfo →
      getSupportedApiVersion fetch st schema methode = (lookupVersion apiInfo methode, st)) ∧
    (∀ (fetch : Nat → String → Except String (List ApiService))
       (calls : List (String × String)),
      (∀ n s, ∃ info, fetch n s = .ok info) →
      ∀ s, (vcRun fetch calls vcInit).2.log.count s ≤ 1) ∧
    (∀ (fetch : Nat → String → Except String (List ApiService)) (st : VcState)
       (schema methode e : String),
      st.apiInfoMap.lookup schema = none →
      fetch st.log.length schema = .error e →
      getSupportedApiVersion fetch st schema methode =
        (.error e, ⟨st.apiInfoMap, schema :: st.log⟩)) := by
  refine ⟨?_, ?_, ?_, ?_, ?_⟩
  · intro fetch st schema methode svc rest api v hmiss hfetch hfind hlast
    simp [getSupportedApiVersion, hmiss, hfetch, lookupVersion, hfind, hlast]
  · intro fetch st schema methode svc rest hmiss hfetch hfind
    simp [getSupportedApiVersion, hmiss, hfetch, lookupVersion, hfind]
  · intro fetch st schema methode apiInfo hcache
    simp [getSupportedApiVersion, hcache]
  · intro fetch calls hf s
    have h := (vcRun_log_invariant fetch hf calls vcInit
      (by intro t ht; exact absurd ht (List.not_mem_nil t)) List.nodup_nil).2
    exact List.nodup_iff_count_le_one.mp h s
  · intro fetch st schema methode e hmiss hfetch
    simp [getSupportedApiVersion, hmiss, hfetch]

/-- C2 witness: the concrete two-version table resolves the last
version for a known method and `"1.0"` for an unknown one; a cached
entry is reused untouched; a run over three calls with succeeding
fetches fetches `avContent` at most once; and a failed fetch caches
nothing while logging the attempt. -/
theorem getSupportedApiVersion_spec_witness :
    (getSupportedApiVersion (fun _ _ => .ok demoApiInfo)
        vcInit "avContent" "getContentList").1 = .ok "1.5" ∧
    (getSupportedApiVersion (fun _ _ => .ok demoApiInfo)
        vcInit "avContent" "getSchemeList").1 = .ok "1.0" ∧
    getSupportedApiVersion (fun _ _ => .error "unused")
        ⟨[("avContent", demoApiInfo)], ["avContent"]⟩ "avContent" "getContentList" =
      (lookupVersion demoApiInfo "getContentList",
        ⟨[("avContent", demoApiInfo)], ["avContent"]⟩) ∧
    (vcRun (fun _ _ => .ok demoApiInfo)
        [("avContent", "getContentList"), ("system", "getPowerStatus"),
          ("avContent", "getContentList")] vcInit).2.log.count "avContent" ≤ 1 ∧
    getSupportedApiVersion (fun _ _ => .error "connect ECONNREFUSED") vcInit
        "guide" "getSupportedApiInfo" =
      (.error "connect ECONNREFUSED", ⟨[], ["guide"]⟩) :=
  ⟨getSupportedApiVersion_spec.1 (fun _ _ => .ok demoApiInfo) vcInit "avContent"
     "getContentList" demoApiService [] demoApiMethod ⟨"1.5"⟩ rfl rfl rfl rfl,
   getSupportedApiVersion_spec.2.1 (fun _ _ => .ok demoApiInfo) vcInit "avContent"
     "getSchemeList" demoApiService [] rfl rfl rfl,
   getSupportedApiVersion_spec.2.2.1 (fun _ _ => .error "unused")
     ⟨[("avContent", demoApiInfo)], ["avContent"]⟩ "avContent" "getContentList"
     demoApiInfo rfl,
   getSupportedApiVersion_spec.2.2.2.1 (fun _ _ => .ok demoApiInfo)
     [("avContent", "getContentList"), ("system", "getPowerStatus"),
       ("avContent", "getContentList")] (fun _ _ => ⟨demoApiInfo, rfl⟩) "avContent",
   getSupportedApiVersion_spec.2.2.2.2 (fun _ _ => .error "connect ECONNREFUSED") vcInit
     "guide" "getSupportedApiInfo" "connect ECONNREFUSED" rfl rfl⟩

/-- Helper for C9: a scan whose pre-deadline responses contain no
failing descriptor resolves at the deadline with the accumulated
device list. -/
theorem discoverRun_no_failure :
    ∀ (events : List SsdpEvent) (acc : List DiscoveredDevice),
      (∀ ev ∈ events, eventFailure ev = none) →
      discoverRun events acc = .resolved (acc ++ events.filterMap eventDevice) := by
  intro events
  induction events with
  | nil => intro acc _; simp [discoverRun]
  | cons ev rest ih =>
    intro acc h
    have hev : eventFailure ev = none := h ev (List.mem_cons_self ev rest)
    have hrest : ∀ e ∈ rest, eventFailure e = none := fun e he => h e (List.mem_cons_of_mem ev he)
    rw [discoverRun]
    cases hsc : (ev.statusCode == 200) with
    | false =>
      have hdev : eventDevice ev = none := by simp [eventDevice, hsc]
      simp [hsc, List.filterMap_cons, hdev, ih acc hrest]
    | true =>
      cases hd : ev.descriptor with
      | fail addr => simp [eventFailure, hsc, hd] at hev
      | ok po =>
        cases po with
        | fail body => simp [eventFailure, hsc, hd] at hev
        | parsed root =>
          cases hp : processRoot root with
          | fail msg => simp [eventFailure, hsc, hd, hp] at hev
          | skip =>
            have hdev : eventDevice ev = none := by simp [eventDevice, hsc, hd, hp]
            simp [hsc, hd, hp, List.filterMap_cons, hdev, ih acc hrest]
          | found d =>
            have hdev : eventDevice ev = some d := by simp [eventDevice, hsc, hd, hp]
            simp [hsc, hd, hp, List.filterMap_cons, hdev, ih (acc ++ [d]) hrest]

/-- Helper for C9: the first failing response rejects the whole scan
with that failure, whatever was accumulated and whatever follows. -/
theorem discoverRun_first_failure :
    ∀ (pre : List SsdpEvent) (ev : SsdpEvent) (post : List SsdpEvent)
      (acc : List DiscoveredDevice) (msg : String),
      (∀ e ∈ pre, eventFailure e = none) → eventFailure ev = some msg →
      discoverRun (pre ++ ev :: post) acc = .rejected msg := by
  intro pre
  induction pre with
  | nil =>
    intro ev post acc msg _ hev
    rw [List.nil_append, discoverRun]
    cases hsc : (ev.statusCode == 200) with
    | false => simp [eventFailure, hsc] at hev
    | true =>
      cases hd : ev.descriptor with
      | fail addr =>
        simp [eventFailure, hsc, hd] at hev
        simp [hsc, hd, hev]
      | ok po =>
        cases po with
        | fail body =>
          simp [eventFailure, hsc, hd] at hev
          simp [hsc, hd, hev]
        | parsed root =>
          cases hp : processRoot root with
          | skip => simp [eventFailure, hsc, hd, hp] at hev
          | found d => simp [eventFailure, hsc, hd, hp] at hev
          | fail m =>
            simp [eventFailure, hsc, hd, hp] at hev
            simp [hsc, hd, hp, hev]
  | cons e rest ih =>
    intro ev post acc msg hpre hev
    have he : eventFailure e = none := hpre e (List.mem_cons_self e rest)
    have hrest : ∀ x ∈ rest, eventFailure x = none := fun x hx => hpre x (List.mem_cons_of_mem e hx)
    rw [List.cons_append, discoverRun]
    cases hsc : (e.statusCode == 200) with
    | false =>
      simp only [hsc, Bool.false_eq_true, if_false]
      exact ih ev post acc msg hrest hev
    | true =>
      cases hd : e.descriptor with
      | fail addr => simp [eventFailure, hsc, hd] at he
      | ok po =>
        cases po with
        | fail body => simp [eventFailure, hsc, hd] at he
        | parsed root =>
          cases hp : processRoot root with
          | fail m => simp [eventFailure, hsc, hd, hp] at he
          | skip =>
            simp only [hsc, if_true, hd, hp]
            exact ih ev post acc msg hrest hev
          | found d =>
            simp only [hsc, if_true, hd, hp]
            exact ih ev post (acc ++ [d]) msg hrest hev

/-- C9: the discovery scan is a two-terminal state machine. With no
descriptor fetch/parse failure before the deadline it resolves at the
deadline with exactly the accumulated devices — responses whose
descriptor lacks the service listing contribute nothing, as the fourth
conjunct spells out. The first failing descriptor rejects the whole
scan with that failure, whatever follows. Resolution and rejection are
the only terminal outcomes. -/
theorem bravia_discover_state_machine :
    (∀ events : List SsdpEvent, (∀ ev ∈ events, eventFailure ev = none) →
      discoverRun events [] = .resolved (events.filterMap eventDevice)) ∧
    (∀ (pre : List SsdpEvent) (ev : SsdpEvent) (post : List SsdpEvent) (msg : String),
      (∀ e ∈ pre, eventFailure e = none) → eventFailure ev = some msg →
      discoverRun (pre ++ ev :: post) [] = .rejected msg) ∧
    (∀ (events : List SsdpEvent) (acc : List DiscoveredDevice),
      (∃ ds, discoverRun events acc = .resolved ds) ∨
      (∃ m, discoverRun events acc = .rejected m)) ∧
    (∀ (root : XmlRoot) (device : XmlDevice), root.device.head? = some device →
      device.serviceList = none →
      eventFailure ⟨200, .ok (.parsed root)⟩ = none ∧
      eventDevice ⟨200, .ok (.parsed root)⟩ = none) := by
  refine ⟨?_, ?_, ?_, ?_⟩
  · intro events h
    simpa using discoverRun_no_failure events [] h
  · intro pre ev post msg hpre hev
    exact discoverRun_first_failure pre ev post [] msg hpre hev
  · intro events acc
    cases h : discoverRun events acc with
    | resolved ds => exact Or.inl ⟨ds, rfl⟩
    | rejected m => exact Or.inr ⟨m, rfl⟩
  · intro root device hhead hsl
    constructor <;> simp [eventFailure, eventDevice, processRoot, hhead, hsl]

/-- C9 witness: the demo response sequence — one IRCC device, one
descriptor without a service listing, one non-200 response — resolves
with just the IRCC device; inserting one malformed descriptor response
rejects the whole scan with the parse failure. -/
theorem bravia_discover_state_machine_witness :
    discoverRun demoEvents [] = .resolved [demoDevice] ∧
    discoverRun (demoEvents ++ ⟨200, .ok (.fail "<bogus")⟩ :: demoEvents) [] =
      .rejected ("Failed to parse the discovery response: " ++ "<bogus" ++ ".") :=
  ⟨bravia_discover_state_machine.1 demoEvents (by decide),
   bravia_discover_state_machine.2.1 demoEvents ⟨200, .ok (.fail "<bogus")⟩ demoEvents
     ("Failed to parse the discovery response: " ++ "<bogus" ++ ".") (by decide) rfl⟩

end SonyBravia
